import Mathlib

/-!
Verification of the MAVLinkThread repository against its design document.

This file gives a shallow embedding, in Lean 4, of the parts of the source
that the frozen claims speak about:

* `mavThread.py`   — the outbound priority queue (`queueOutputMsg`,
  `_getWriteMsg`), the pump iteration (`_loopInternals`, `_readMsg`) and the
  outer `loop`;
* `mavSocket.py`   — the datagram transport state machine (`openPort`,
  `_openReadPort`, `_openWritePort`, `read`, `write`, `isOpen`, `isUDP`,
  `flush`);
* `mavSerial.py`   — the stream transport (`openPort`, `closePort`, `isOpen`);
* `example_autoRecovery.py` — the recovery supervisor (`mavClass.loop`).

Python values that may be `None` are embedded as `Option`; byte strings as
`List Nat` (the empty byte string is `[]`); socket addresses as opaque
naturals; `MAVLink_message` payloads as an opaque handle carrying the result
of the `isinstance` check.  Operating-system calls (`bind`, `connect`,
`send`, `recvfrom`) are modelled as succeeding, with the receive buffer of
the read socket and the log of sent datagrams threaded through the state;
the local endpoint the OS assigns on `connect` is passed in as a parameter
`osLocal`.  Warnings emitted with `warnings.warn` are accumulated in the
state, since the design document treats them as observable discard notices.
Leading underscores of Python method names are dropped where Lean would
reject them.
-/

namespace MavlinkThread

/-- Bytes of a datagram or stream chunk; an empty Python byte string is
embedded as the empty list. -/
abbrev Bytes := List Nat

/-- Opaque socket address (an IP/port pair or a UNIX path in the source). -/
abbrev Addr := Nat

/-- Opaque application message handle.  `isMav` records the outcome of the
`isinstance( msg, self._mavLib.MAVLink_message )` check performed by
`queueOutputMsg`; `pid` distinguishes message objects. -/
structure Msg where
  pid : Nat
  isMav : Bool
deriving DecidableEq, Repr

/-- Python exceptions that the embedded code can raise: a plain
`Exception(msg)` and the `AttributeError` raised by attribute lookup on a
name the object does not have. -/
inductive PyErr where
  | exc (msg : String)
  | attrError (name : String)
deriving DecidableEq, Repr

namespace mavSerial

/-- State of a `mavSerial` object: whether `self._serialObj` is open.  The
port name, baudrate and timeouts are fixed at construction and play no role
in the claims. -/
structure SerialState where
  portOpen : Bool
deriving DecidableEq, Repr

/-- Embedding of `mavSerial.isOpen` (mavSerial.py lines 115-120). -/
def isOpen (s : SerialState) : Bool := s.portOpen

/-- Embedding of `mavSerial.openPort` (mavSerial.py lines 48-52): raise
`Exception( Port already open )` when `isOpen`, otherwise open the
underlying serial object. -/
def openPort (s : SerialState) : Except PyErr SerialState :=
  if isOpen s then .error (.exc "Port already open")
  else .ok ⟨true⟩

/-- Embedding of `mavSerial.closePort` (mavSerial.py lines 61-67): the
guard `if self._serialObj.isOpen:` tests a bound method object, which is
always truthy, so `close()` is always called; the port ends closed either
way and exceptions are swallowed. -/
def closePort (_ : SerialState) : SerialState := ⟨false⟩

end mavSerial

namespace mavThread

/-- One entry of `self._writeQueue`: the tuple
`(priority, self._seq, msg)` put by `queueOutputMsg`
(mavThread.py line 122). -/
structure QEntry where
  priority : Int
  seq : Nat
  msg : Msg
deriving DecidableEq, Repr

/-- The scheduler state of a `mavThread` object: the multiset of pending
entries of `self._writeQueue` (kept in insertion order) together with the
`self._seq` counter. -/
structure SchedState where
  queue : List QEntry
  seq : Nat
deriving DecidableEq, Repr

/-- Scheduler state right after `__init__`: empty queue, `_seq = 0`. -/
def initSched : SchedState := ⟨[], 0⟩

/-- Comparison used by the Python `queue.PriorityQueue` (a binary min-heap
over tuples): lexicographic order on `(priority, seq)`.  The third tuple
component (the message object) is never reached because `_seq` values are
distinct in every reachable queue. -/
def keyLe (a b : QEntry) : Bool :=
  decide (a.priority < b.priority ∨ (a.priority = b.priority ∧ a.seq ≤ b.seq))

/-- Removal of the minimum element, as `PriorityQueue.get_nowait` does on
the heap: returns the entry least in `keyLe` (leftmost among key-ties) and
the remaining entries, or `none` when the queue is empty. -/
def popMin : List QEntry → Option (QEntry × List QEntry)
  | [] => none
  | e :: rest =>
    match popMin rest with
    | none => some (e, [])
    | some (m, r) => if keyLe e m then some (e, rest) else some (m, e :: r)

/-- Embedding of `mavThread.queueOutputMsg` (mavThread.py lines 118-125):
reject non-`MAVLink_message` payloads returning `False` before touching any
state; otherwise put `(priority, self._seq, msg)` and increment `_seq`. -/
def queueOutputMsg (s : SchedState) (msg : Msg) (priority : Int) :
    Bool × SchedState :=
  if !msg.isMav then (false, s)
  else (true, ⟨s.queue ++ [⟨priority, s.seq, msg⟩], s.seq + 1⟩)

/-- Embedding of `mavThread._getWriteMsg` (mavThread.py lines 193-198):
`get_nowait` the least tuple and return its third component `msg[2]`, or
`None` when the queue raises `queue.Empty`. -/
def getWriteMsg (s : SchedState) : Option Msg × SchedState :=
  match popMin s.queue with
  | none => (none, s)
  | some (e, r) => (some e.msg, ⟨r, s.seq⟩)

/-- Run a sequence of `queueOutputMsg` calls, given as (priority, message)
pairs, against the freshly initialised scheduler. -/
def runEnqueues (ops : List (Int × Msg)) : SchedState :=
  ops.foldl (fun s pm => (queueOutputMsg s pm.2 pm.1).2) initSched

/-- The queue contents produced by a run of enqueues starting at sequence
counter `n`: valid messages are stamped with consecutive sequence numbers,
invalid ones are dropped without advancing the counter. -/
def stampFrom : Nat → List (Int × Msg) → List QEntry
  | _, [] => []
  | n, (p, m) :: r =>
    if m.isMav then ⟨p, n, m⟩ :: stampFrom (n + 1) r else stampFrom n r

/-- Number of enqueue calls accepted by the `isinstance` check. -/
def countValid : List (Int × Msg) → Nat
  | [] => 0
  | (_, m) :: r => (if m.isMav then 1 else 0) + countValid r

/-- Concrete message X of the scenario of the design document. -/
def msgX : Msg := ⟨1, true⟩

/-- Concrete message Y of the scenario of the design document. -/
def msgY : Msg := ⟨2, true⟩

/-- Embedding of the body of the drain loop of `mavThread._readMsg`
(mavThread.py lines 239-252): repeatedly call `self._ser.read()`; the
channel is a queue of chunks, a call pops the next chunk; a read giving
the empty byte string breaks the loop; every other chunk is fed to the
incremental parser `P` (the opaque codec `self._mavObj.parse_buffer`) and
the parsed messages are accumulated. -/
def readMsgLoop (P : Bytes → List Msg) :
    List Bytes → List Msg → List Msg × List Bytes
  | [], acc => (acc, [])
  | c :: rest, acc =>
    if c = [] then (acc, rest) else readMsgLoop P rest (acc ++ P c)

/-- Embedding of `mavThread._readMsg` (mavThread.py lines 236-253): drain
the channel and return `mList`.  The Python function ends with
`return mList`, so at the call site, where a value may also be `None`, the
result is always `some` list — the `None` of its own doc comment is never
produced. -/
def readMsg (P : Bytes → List Msg) (chunks : List Bytes) :
    Option (List Msg) × List Bytes :=
  (some (readMsgLoop P chunks []).1, (readMsgLoop P chunks []).2)

/-- Observable effects of one call of `mavThread._loopInternals`. -/
structure IterResult where
  slept : Bool
  delivered : Option (List Msg)
  written : Option Msg
  chunks : List Bytes
  sched : SchedState
deriving DecidableEq, Repr

/-- Embedding of `mavThread._loopInternals` (mavThread.py lines 161-173):
read, dequeue, then either sleep `self.noRWSleepTime` when both came back
`None`, or deliver the parsed batch to `_processReadMsg` and write the
dequeued message out. -/
def loopInternals (P : Bytes → List Msg) (chunks : List Bytes)
    (s : SchedState) : IterResult :=
  let rm := readMsg P chunks
  let wm := getWriteMsg s
  if rm.1.isNone && wm.1.isNone then
    ⟨true, none, none, rm.2, wm.2⟩
  else
    ⟨false, rm.1, wm.1, rm.2, wm.2⟩

/-- Observable outcome of one `_loopInternals` call inside the guarded
`while` of `mavThread.loop` (mavThread.py lines 143-153): it returns, it
raises an exception, or a `KeyboardInterrupt` arrives. -/
inductive IterOutcome where
  | ok
  | raiseExc
  | kbInt
deriving DecidableEq, Repr

/-- Result of the `while not self._intentionallyExit` loop of
`mavThread.loop` over a finite script of iteration outcomes: a plain
outcome runs the next iteration, `KeyboardInterrupt` breaks out normally,
and an exception is re-raised as
`Exception( MAVLink thread exited unexpectedly )`.  An exhausted script
models `stopLoop` having set `_intentionallyExit`. -/
def runIters : List IterOutcome → Except PyErr Unit
  | [] => .ok ()
  | .ok :: r => runIters r
  | .raiseExc :: _ => .error (.exc "MAVLink thread exited unexpectedly")
  | .kbInt :: _ => .ok ()

/-- Embedding of `mavThread.loop` (mavThread.py lines 135-155) over a
serial channel: open the channel when it is not open (the guard makes the
`openPort` call exception-free), flush, then run the iteration loop.  The
iterations themselves do not change the open state of the channel. -/
def loopRun (outcomes : List IterOutcome) (ch : mavSerial.SerialState) :
    Except PyErr Unit × mavSerial.SerialState :=
  let ch1 := if mavSerial.isOpen ch then ch else ⟨true⟩
  (runIters outcomes, ch1)

/-- Attribute names available on a `mavThread` instance, read off the class
body of mavThread.py and the instance attributes set in `__init__`. -/
def mavThreadAttrs : List String :=
  ["srcSystem", "srcComponent", "stopLoop", "queueOutputMsg", "loop",
   "_loopInternals", "_processReadMsg", "_getWriteMsg", "_writeMsg",
   "_readMsg", "_ser", "_mavLib", "loopPauseSleepTime", "noRWSleepTime",
   "_seq", "_writeQueue", "_intentionallyExit", "_mavObj"]

end mavThread

namespace mavClass

/-- Attribute names available on a `mavClass` instance of
example_autoRecovery.py: the overrides `_processReadMsg` and `loop` plus
everything inherited from `mavThread`.  Notably there is no
`startRWLoop` and no `stopRWLoop` anywhere in the repository. -/
def mavClassAttrs : List String :=
  ["_processReadMsg", "loop"] ++ mavThread.mavThreadAttrs

/-- Python attribute lookup on a `mavClass` instance; a miss raises
`AttributeError` at the call site. -/
def hasAttr (n : String) : Bool := mavClassAttrs.contains n

/-- Embedding of `mavClass.loop` of example_autoRecovery.py (lines 20-28):
run the inherited pump loop; when it raises, close the channel, sleep one
second, and call `self.startRWLoop()` — an attribute lookup that raises
`AttributeError` when the name does not exist, escaping the supervisor.
Each element of the script is the outcome list of one inner `loop` run; an
exhausted script models an intentional stop. -/
def loopRun : List (List mavThread.IterOutcome) → mavSerial.SerialState →
    Except PyErr Unit × mavSerial.SerialState
  | [], ch => (.ok (), ch)
  | sc :: rest, ch =>
    match mavThread.loopRun sc ch with
    | (.ok _, ch1) => loopRun rest ch1
    | (.error _, ch1) =>
      let ch2 := mavSerial.closePort ch1
      if hasAttr "startRWLoop" then loopRun rest ch2
      else (.error (.attrError "startRWLoop"), ch2)

end mavClass

namespace mavSocket

/-- Socket type of the transport, `self.SOCK_type` in the source. -/
inductive SockKind where
  | dgram
  | stream
deriving DecidableEq, Repr

/-- Address family of the transport, `self.AF_type` in the source. -/
inductive AFam where
  | inet
  | inet6
  | unix
deriving DecidableEq, Repr

/-- State of a `mavSocket` object: the configured or learned addresses, the
two per-direction connection flags, the peer the write socket was
`connect`ed to, the type selectors, the receive buffer of the read socket,
the log of datagrams handed to `send`, and the warnings emitted so far. -/
structure SocketState where
  readAddress : Option Addr
  writeAddress : Option Addr
  rConnected : Bool
  wConnected : Bool
  connectedPeer : Option Addr
  sockType : SockKind
  afType : AFam
  inbound : List (Bytes × Addr)
  sent : List (Bytes × Addr)
  warnings : List String
deriving DecidableEq, Repr

/-- State built by `mavSocket.__init__` (mavSocket.py lines 28-47) when at
least one address is given: both directions unconnected, defaults
`SOCK_DGRAM` and `AF_INET`, empty buffers. -/
def initSocket (listenAddress broadcastAddress : Option Addr) : SocketState :=
  ⟨listenAddress, broadcastAddress, false, false, none, .dgram, .inet,
   [], [], []⟩

/-- Embedding of `mavSocket.__init__` (mavSocket.py lines 28-47) with its
`ConfigurationError` when neither address is given. -/
def mkSocket (listenAddress broadcastAddress : Option Addr) :
    Except PyErr SocketState :=
  if listenAddress.isNone && broadcastAddress.isNone then
    .error (.exc "A address for either listen, broadcast or both is required")
  else .ok (initSocket listenAddress broadcastAddress)

/-- Embedding of `mavSocket.set_AF_type` (mavSocket.py lines 55-56). -/
def set_AF_type (a : AFam) (s : SocketState) : SocketState :=
  {s with afType := a}

/-- Embedding of `mavSocket.set_SOCK_type` (mavSocket.py lines 64-65). -/
def set_SOCK_type (k : SockKind) (s : SocketState) : SocketState :=
  {s with sockType := k}

/-- Embedding of `mavSocket.isUDP` (mavSocket.py lines 85-90):
`SOCK_type is SOCK_DGRAM and AF_type is not AF_UNIX`. -/
def isUDP (s : SocketState) : Bool :=
  s.sockType == .dgram && !(s.afType == .unix)

/-- Embedding of `mavSocket._openReadPort` (mavSocket.py lines 98-119):
already connected returns `True` unchanged; a missing read address warns
and returns `False`; otherwise the read socket is created and bound.  The
`bind` OS call is modelled as succeeding; the UNIX stale-file removal has
no observable in this model. -/
def openReadPort (s : SocketState) : Bool × SocketState :=
  if s.rConnected then (true, s)
  else
    match s.readAddress with
    | none =>
      (false, {s with warnings :=
        s.warnings ++ ["Read address not specified - message discarded"]})
    | some _ => (true, {s with rConnected := true})

/-- Embedding of `mavSocket._openWritePort` (mavSocket.py lines 127-153):
already connected returns `True` unchanged; a missing write address warns
and returns `False`; otherwise the write socket is created and `connect`ed
to the write address; if no read address is configured and the transport is
UDP, the read address becomes the local endpoint the OS assigned to the
connect — passed in as `osLocal`. -/
def openWritePort (osLocal : Addr) (s : SocketState) : Bool × SocketState :=
  if s.wConnected then (true, s)
  else
    match s.writeAddress with
    | none =>
      (false, {s with warnings := s.warnings ++ ["Write address not yet known"]})
    | some w =>
      let s1 := {s with connectedPeer := some w}
      let s2 :=
        if s1.readAddress.isNone && isUDP s1 then
          {s1 with readAddress := some osLocal}
        else s1
      (true, {s2 with wConnected := true})

/-- Embedding of `mavSocket.openPort` (mavSocket.py lines 73-77): open the
read port, then the write port but only for UDP transports. -/
def openPort (osLocal : Addr) (s : SocketState) : SocketState :=
  let s1 := (openReadPort s).2
  if isUDP s1 then (openWritePort osLocal s1).2 else s1

/-- Embedding of `mavSocket.read` (mavSocket.py lines 193-211): when the
read port cannot be opened return the empty byte string; otherwise
`recvfrom` pops the next buffered datagram — learning the write address
from its sender when none is configured — and an empty buffer raises
`BlockingIOError`, absorbed into an empty result. -/
def read (s : SocketState) : Bytes × SocketState :=
  match openReadPort s with
  | (false, s1) => ([], s1)
  | (true, s1) =>
    match s1.inbound with
    | [] => ([], s1)
    | (m, addr) :: rest =>
      let s2 := {s1 with inbound := rest}
      let s3 :=
        if s2.writeAddress.isNone then {s2 with writeAddress := some addr}
        else s2
      (m, s3)

/-- Embedding of `mavSocket.write` (mavSocket.py lines 220-233): when the
write port cannot be opened the call returns with nothing sent (the discard
notice was emitted by `_openWritePort`); otherwise `send` ships the bytes
to the peer the write socket is connected to. -/
def write (osLocal : Addr) (b : Bytes) (s : SocketState) : SocketState :=
  match openWritePort osLocal s with
  | (false, s1) => s1
  | (true, s1) =>
    match s1.connectedPeer with
    | some p => {s1 with sent := s1.sent ++ [(b, p)]}
    | none => s1

/-- Embedding of `mavSocket.isOpen` (mavSocket.py lines 241-242):
`self._rConnected and self._wConnected`, with no regard to which
directions the configuration calls for. -/
def isOpen (s : SocketState) : Bool :=
  s.rConnected && s.wConnected

/-- Embedding of `mavSocket.closePort` (mavSocket.py lines 161-179): both
sockets are closed and both flags cleared; exceptions are swallowed. -/
def closePort (s : SocketState) : SocketState :=
  {s with rConnected := false, wConnected := false}

/-- Embedding of `mavSocket.flush` (mavSocket.py lines 259-262):
`while self.read() != b : pass` with no iteration limit.  `env k` is the
batch of datagrams the peer delivers into the receive buffer before the
k-th read; `fuel` is how many loop iterations we observe: `none` means the
loop has not returned within `fuel` iterations. -/
def flushLoop (env : Nat → List (Bytes × Addr)) :
    Nat → Nat → SocketState → Option SocketState
  | _, 0, _ => none
  | k, fuel + 1, s =>
    let s0 := {s with inbound := s.inbound ++ env k}
    let p := read s0
    if p.1 = [] then some p.2 else flushLoop env (k + 1) fuel p.2

/-- Scenario state of the design document: a transport constructed with
only a listen address `L`, right after `openPort`. -/
def listenOnlyOpened (L ℓ : Addr) : SocketState :=
  openPort ℓ (initSocket (some L) none)

/-- The listen-only transport after one datagram `m` from peer `X` has
arrived in the receive buffer and been read. -/
def afterLearn (L ℓ X : Addr) (m : Bytes) : SocketState :=
  (read {listenOnlyOpened L ℓ with inbound := [(m, X)]}).2

/-- Scenario state of the design document: a transport constructed with
only a peer address `p`, right after `openPort`, where the OS assigned
local endpoint `ℓ` to the connect. -/
def selfDiscovered (p ℓ : Addr) : SocketState :=
  openPort ℓ (initSocket none (some p))

end mavSocket

namespace mavThread

lemma keyLe_refl (e : QEntry) : keyLe e e = true := by
  simp [keyLe]

lemma keyLe_total (a b : QEntry) (h : ¬ keyLe a b = true) : keyLe b a = true := by
  simp only [keyLe, decide_eq_true_eq] at h ⊢
  omega

lemma keyLe_trans (a b c : QEntry) (hab : keyLe a b = true)
    (hbc : keyLe b c = true) : keyLe a c = true := by
  simp only [keyLe, decide_eq_true_eq] at hab hbc ⊢
  omega

lemma popMin_eq_none {l : List QEntry} : popMin l = none ↔ l = [] := by
  cases l with
  | nil => simp [popMin]
  | cons e rest =>
    simp only [popMin]
    cases h : popMin rest with
    | none => simp
    | some p => cases p with
      | mk m r => by_cases hk : keyLe e m <;> simp [hk]

lemma popMin_min {l : List QEntry} {e : QEntry} {r : List QEntry}
    (h : popMin l = some (e, r)) : ∀ f ∈ l, keyLe e f = true := by
  induction l generalizing e r with
  | nil => simp [popMin] at h
  | cons a rest ih =>
    simp only [popMin] at h
    cases hrest : popMin rest with
    | none =>
      rw [hrest] at h
      have hnil : rest = [] := popMin_eq_none.mp hrest
      simp only [Option.some.injEq, Prod.mk.injEq] at h
      obtain ⟨rfl, rfl⟩ := h
      subst hnil
      intro f hf
      simp only [List.mem_singleton] at hf
      rw [hf]
      exact keyLe_refl a
    | some p =>
      obtain ⟨m, r0⟩ := p
      rw [hrest] at h
      by_cases hk : keyLe a m = true
      · simp only [hk, if_true, Option.some.injEq, Prod.mk.injEq] at h
        obtain ⟨rfl, rfl⟩ := h
        intro f hf
        rcases List.mem_cons.mp hf with hfa | hfr
        · rw [hfa]; exact keyLe_refl a
        · exact keyLe_trans a m f hk (ih hrest f hfr)
      · simp only [hk, if_false, Option.some.injEq, Prod.mk.injEq] at h
        obtain ⟨rfl, rfl⟩ := h
        intro f hf
        rcases List.mem_cons.mp hf with hfa | hfr
        · rw [hfa]; exact keyLe_total a e hk
        · exact ih hrest f hfr

lemma foldl_enqueue (ops : List (Int × Msg)) :
    ∀ s : SchedState,
      (ops.foldl (fun s pm => (queueOutputMsg s pm.2 pm.1).2) s).queue
        = s.queue ++ stampFrom s.seq ops ∧
      (ops.foldl (fun s pm => (queueOutputMsg s pm.2 pm.1).2) s).seq
        = s.seq + countValid ops := by
  induction ops with
  | nil => intro s; simp [stampFrom, countValid]
  | cons pm rest ih =>
    intro s
    obtain ⟨p, m⟩ := pm
    by_cases hm : m.isMav
    · have step : (queueOutputMsg s m p).2
          = ⟨s.queue ++ [⟨p, s.seq, m⟩], s.seq + 1⟩ := by
        simp [queueOutputMsg, hm]
      simp only [List.foldl_cons, step]
      obtain ⟨hq, hs⟩ := ih ⟨s.queue ++ [⟨p, s.seq, m⟩], s.seq + 1⟩
      constructor
      · rw [hq]; simp [stampFrom, hm]
      · rw [hs]; simp [countValid, hm]; omega
    · have step : (queueOutputMsg s m p).2 = s := by
        simp [queueOutputMsg, hm]
      simp only [List.foldl_cons, step]
      obtain ⟨hq, hs⟩ := ih s
      constructor
      · rw [hq]; simp [stampFrom, hm]
      · rw [hs]; simp [countValid, hm]

lemma stampFrom_lb (ops : List (Int × Msg)) :
    ∀ n : Nat, ∀ e ∈ stampFrom n ops, n ≤ e.seq := by
  induction ops with
  | nil => intro n e he; simp [stampFrom] at he
  | cons pm rest ih =>
    intro n e he
    obtain ⟨p, m⟩ := pm
    by_cases hm : m.isMav
    · simp only [stampFrom, hm, if_true, List.mem_cons] at he
      rcases he with he | he
      · subst he; exact le_refl n
      · have := ih (n + 1) e he; omega
    · simp only [stampFrom, hm, if_false] at he
      exact ih n e he

lemma stampFrom_seq_sorted (ops : List (Int × Msg)) :
    ∀ n : Nat, (stampFrom n ops).Pairwise (fun a b => a.seq < b.seq) := by
  induction ops with
  | nil => intro n; simp [stampFrom]
  | cons pm rest ih =>
    intro n
    obtain ⟨p, m⟩ := pm
    by_cases hm : m.isMav
    · simp only [stampFrom, hm, if_true]
      refine List.Pairwise.cons ?_ (ih (n + 1))
      intro b hb
      have := stampFrom_lb rest (n + 1) b hb
      show n < b.seq
      omega
    · simp only [stampFrom, hm, if_false]
      exact ih n

lemma runEnqueues_queue (ops : List (Int × Msg)) :
    (runEnqueues ops).queue = stampFrom 0 ops := by
  have h := (foldl_enqueue ops initSched).1
  simpa [runEnqueues, initSched] using h

end mavThread

/-- C1 (counterexample): the claim states that after enqueueing item X at
priority 1 and then item Y at priority 5, `dequeueNext()` returns Y first.
On the code, `queueOutputMsg` puts `(priority, seq, msg)` into a Python
`PriorityQueue`, a min-heap, so the first `_getWriteMsg` call returns X,
the priority-1 item — not Y.  The repository test `test_priorityQueue`
expects exactly this lowest-number-first order. -/
theorem c1_counterexample :
    (mavThread.getWriteMsg (mavThread.runEnqueues
        [(1, mavThread.msgX), (5, mavThread.msgY)])).1
      = some mavThread.msgX ∧
    some mavThread.msgX ≠ some mavThread.msgY := by
  constructor
  · decide
  · decide

/-- C1 (amended): for every sequence of enqueue operations on the
scheduler, `dequeueNext()` returns the pending item of LOWEST-numbered
priority first, and among items of equal priority the one enqueued
earliest (ascending sequence, which coincides with insertion order); in
particular, after enqueueing item X at priority 1 and then item Y at
priority 5, `dequeueNext()` returns X then Y. -/
theorem c1_dequeue_order (ops : List (Int × Msg)) :
    ((mavThread.runEnqueues ops).queue.Pairwise (fun a b => a.seq < b.seq)) ∧
    (∀ e r, mavThread.popMin (mavThread.runEnqueues ops).queue = some (e, r) →
      ∀ f ∈ (mavThread.runEnqueues ops).queue,
        e.priority < f.priority ∨
          (e.priority = f.priority ∧ e.seq ≤ f.seq)) ∧
    (mavThread.getWriteMsg (mavThread.runEnqueues
        [(1, mavThread.msgX), (5, mavThread.msgY)])).1
      = some mavThread.msgX ∧
    (mavThread.getWriteMsg
        (mavThread.getWriteMsg (mavThread.runEnqueues
          [(1, mavThread.msgX), (5, mavThread.msgY)])).2).1
      = some mavThread.msgY := by
  refine ⟨?_, ?_, by decide, by decide⟩
  · rw [mavThread.runEnqueues_queue]
    exact mavThread.stampFrom_seq_sorted ops 0
  · intro e r h f hf
    have hk := mavThread.popMin_min h f hf
    simpa [mavThread.keyLe, decide_eq_true_eq] using hk

/-- C1 (witness): the amended ordering theorem applied to the concrete
scenario queue holding X at priority 1 (sequence 0) and Y at priority 5
(sequence 1): the dequeued entry is least against the queued entry Y. -/
theorem c1_dequeue_order_witness :
    (⟨1, 0, mavThread.msgX⟩ : mavThread.QEntry).priority
        < (⟨5, 1, mavThread.msgY⟩ : mavThread.QEntry).priority ∨
      ((⟨1, 0, mavThread.msgX⟩ : mavThread.QEntry).priority
          = (⟨5, 1, mavThread.msgY⟩ : mavThread.QEntry).priority ∧
        (⟨1, 0, mavThread.msgX⟩ : mavThread.QEntry).seq
          ≤ (⟨5, 1, mavThread.msgY⟩ : mavThread.QEntry).seq) :=
  (c1_dequeue_order [(1, mavThread.msgX), (5, mavThread.msgY)]).2.1
    ⟨1, 0, mavThread.msgX⟩ [⟨5, 1, mavThread.msgY⟩] (by decide)
    ⟨5, 1, mavThread.msgY⟩ (by decide)

/-- C2 (code_bug evaluation): the claim states that a pump iteration that
parses no inbound message and dequeues no outbound item sleeps for the
idle backoff interval.  In the code `_readMsg` always returns a list —
never the `None` its doc comment promises — so the guard
`rMsg is None and wMsg is None` of `_loopInternals` is unreachable: no
iteration ever sleeps, whatever the codec, the channel content and the
queue state; and an idle iteration (empty channel, empty queue) instead
hands the empty batch to `_processReadMsg`. -/
theorem c2_idle_sleep_unreachable :
    (∀ (P : Bytes → List Msg) (chunks : List Bytes)
        (s : mavThread.SchedState),
      (mavThread.loopInternals P chunks s).slept = false) ∧
    (∀ P : Bytes → List Msg,
      (mavThread.loopInternals P [] mavThread.initSched).delivered
          = some [] ∧
        (mavThread.loopInternals P [] mavThread.initSched).written = none) := by
  constructor
  · intro P chunks s
    simp [mavThread.loopInternals, mavThread.readMsg]
  · intro P
    simp [mavThread.loopInternals, mavThread.readMsg, mavThread.readMsgLoop,
      mavThread.getWriteMsg, mavThread.initSched, mavThread.popMin]

/-- C9: `queueOutputMsg` with a payload failing the `isinstance` check
returns `False` and leaves the scheduler untouched — no queue entry, no
sequence advance; with a valid message it appends the entry stamped with
the current sequence number, increments the counter, and returns
`True`. -/
theorem c9_enqueue_validation (s : mavThread.SchedState) (m : Msg) (p : Int) :
    (m.isMav = false →
      (mavThread.queueOutputMsg s m p).1 = false ∧
        (mavThread.queueOutputMsg s m p).2 = s) ∧
    (m.isMav = true →
      (mavThread.queueOutputMsg s m p).1 = true ∧
        (mavThread.queueOutputMsg s m p).2.queue
          = s.queue ++ [⟨p, s.seq, m⟩] ∧
        (mavThread.queueOutputMsg s m p).2.seq = s.seq + 1) := by
  constructor
  · intro h
    simp [mavThread.queueOutputMsg, h]
  · intro h
    simp [mavThread.queueOutputMsg, h]

/-- C3 (code_bug evaluation): the claim states that when an error escapes
the pump loop the supervisor closes the channel, waits the cooldown, and
restarts the loop so the channel becomes open again.  In the code the
handler of `mavClass.loop` closes the port, sleeps, then calls
`self.startRWLoop()` — a method that exists nowhere in the repository —
so an `AttributeError` escapes the supervisor and the channel stays
closed, never reopened. -/
theorem c3_recovery_attribute_error :
    mavClass.loopRun [[.ok, .raiseExc]] ⟨true⟩
      = (.error (.attrError "startRWLoop"), ⟨false⟩) ∧
    mavSerial.isOpen (mavClass.loopRun [[.ok, .raiseExc]] ⟨true⟩).2 = false := by
  constructor
  · rfl
  · rfl

/-- C4 (code_bug evaluation): the claim states that `flush()` terminates
within a guaranteed bound even if a peer is continuously sending.  The
code is `while self.read() != b : pass` with no limit — its own comment
reads `Probably need a limit to prevent an infinite loop` — so with a peer
delivering one non-empty datagram before every read, the loop has not
returned after any number of iterations, starting from a bound
listen-only socket with an empty buffer. -/
theorem c4_flush_unbounded :
    ∀ fuel k : Nat,
      mavSocket.flushLoop (fun _ => [([7], 99)]) k fuel
          ⟨some 1, some 2, true, false, none, .dgram, .inet, [], [], []⟩
        = none := by
  intro fuel
  induction fuel with
  | zero => intro k; rfl
  | succ n ih =>
    intro k
    have step :
        mavSocket.flushLoop (fun _ => [([7], 99)]) k (n + 1)
            ⟨some 1, some 2, true, false, none, .dgram, .inet, [], [], []⟩
          = mavSocket.flushLoop (fun _ => [([7], 99)]) (k + 1) n
            ⟨some 1, some 2, true, false, none, .dgram, .inet, [], [], []⟩ := rfl
    rw [step]
    exact ih (k + 1)

/-- C5 (counterexample): the claim states that `open()` raises
`AlreadyOpenError` on every already-fully-open transport channel.  On a
fully open datagram transport, `mavSocket.openPort` returns the state
unchanged and raises nothing — both `_openReadPort` and `_openWritePort`
return `True` from their first line and no raise statement exists on this
path in the source. -/
theorem c5_counterexample :
    mavSocket.openPort 50
        ⟨some 1, some 2, true, true, some 2, .dgram, .inet, [], [], []⟩
      = ⟨some 1, some 2, true, true, some 2, .dgram, .inet, [], [], []⟩ := by
  rfl

/-- C5 (amended): the stream transport's `open()` raises the already-open
error when called on an open channel and opens it otherwise; the datagram
transport's `open()` never raises — on an already-fully-open channel it is
a no-op, and on a half-open channel it completes the missing direction
exactly when that direction is one `open()` itself establishes: the read
direction always, the write direction only for UDP configurations
(`SOCK_DGRAM` and not `AF_UNIX`); on a non-UDP half-open channel whose
write direction is missing, `open()` changes nothing and the write
direction is left to the first `write()`. -/
theorem c5_open_per_direction :
    (∀ t : mavSerial.SerialState, mavSerial.isOpen t = true →
      mavSerial.openPort t = .error (.exc "Port already open")) ∧
    (∀ t : mavSerial.SerialState, mavSerial.isOpen t = false →
      mavSerial.openPort t = .ok ⟨true⟩) ∧
    (∀ (s : mavSocket.SocketState) (ℓ : Addr),
      s.rConnected = true → s.wConnected = true →
      mavSocket.openPort ℓ s = s) ∧
    (∀ (s : mavSocket.SocketState) (ℓ a w : Addr),
      s.rConnected = true → s.wConnected = false →
      s.readAddress = some a → s.writeAddress = some w →
      mavSocket.isUDP s = true →
      (mavSocket.openPort ℓ s).rConnected = true ∧
        (mavSocket.openPort ℓ s).wConnected = true ∧
        (mavSocket.openPort ℓ s).readAddress = some a ∧
        (mavSocket.openPort ℓ s).connectedPeer = some w) ∧
    (∀ (s : mavSocket.SocketState) (ℓ a : Addr),
      s.rConnected = false → s.wConnected = true →
      s.readAddress = some a →
      (mavSocket.openPort ℓ s).rConnected = true ∧
        (mavSocket.openPort ℓ s).wConnected = true ∧
        (mavSocket.openPort ℓ s).writeAddress = s.writeAddress ∧
        (mavSocket.openPort ℓ s).sent = s.sent) ∧
    (∀ (s : mavSocket.SocketState) (ℓ : Addr),
      s.rConnected = true → s.wConnected = false →
      mavSocket.isUDP s = false →
      mavSocket.openPort ℓ s = s) := by
  refine ⟨?_, ?_, ?_, ?_, ?_, ?_⟩
  · intro t h
    simp [mavSerial.openPort, h]
  · intro t h
    simp [mavSerial.openPort, h]
  · intro s ℓ hr hw
    simp [mavSocket.openPort, mavSocket.openReadPort, mavSocket.openWritePort,
      hr, hw]
  · intro s ℓ a w hr hwc hra hwa hu
    simp [mavSocket.openPort, mavSocket.openReadPort, mavSocket.openWritePort,
      hr, hwc, hra, hwa, hu]
  · intro s ℓ a hrc hwc hra
    simp [mavSocket.openPort, mavSocket.openReadPort, mavSocket.openWritePort,
      hrc, hwc, hra]
  · intro s ℓ hr _ hu
    simp [mavSocket.openPort, mavSocket.openReadPort, hr, hu]

/-- C5 (witness): the per-direction open theorem applied to an open and a
closed serial port, a fully open socket, a UDP socket with only the write
direction missing, a socket with only the read direction missing, and a
UNIX-family socket with only the write direction missing, on which a
second `openPort` changes nothing. -/
theorem c5_open_per_direction_witness :
    mavSerial.openPort ⟨true⟩ = .error (.exc "Port already open") ∧
    mavSerial.openPort ⟨false⟩ = .ok ⟨true⟩ ∧
    mavSocket.openPort 50
        ⟨some 1, some 2, true, true, some 2, .dgram, .inet, [], [], []⟩
      = ⟨some 1, some 2, true, true, some 2, .dgram, .inet, [], [], []⟩ ∧
    ((mavSocket.openPort 50
        ⟨some 1, some 2, true, false, none, .dgram, .inet, [], [], []⟩).rConnected
        = true ∧
      (mavSocket.openPort 50
        ⟨some 1, some 2, true, false, none, .dgram, .inet, [], [], []⟩).wConnected
        = true ∧
      (mavSocket.openPort 50
        ⟨some 1, some 2, true, false, none, .dgram, .inet, [], [], []⟩).readAddress
        = some 1 ∧
      (mavSocket.openPort 50
        ⟨some 1, some 2, true, false, none, .dgram, .inet, [], [], []⟩).connectedPeer
        = some 2) ∧
    ((mavSocket.openPort 50
        ⟨some 1, some 2, false, true, some 2, .dgram, .inet, [], [], []⟩).rConnected
        = true ∧
      (mavSocket.openPort 50
        ⟨some 1, some 2, false, true, some 2, .dgram, .inet, [], [], []⟩).wConnected
        = true ∧
      (mavSocket.openPort 50
        ⟨some 1, some 2, false, true, some 2, .dgram, .inet, [], [], []⟩).writeAddress
        = (⟨some 1, some 2, false, true, some 2, .dgram, .inet, [], [], []⟩ :
            mavSocket.SocketState).writeAddress ∧
      (mavSocket.openPort 50
        ⟨some 1, some 2, false, true, some 2, .dgram, .inet, [], [], []⟩).sent
        = (⟨some 1, some 2, false, true, some 2, .dgram, .inet, [], [], []⟩ :
            mavSocket.SocketState).sent) ∧
    mavSocket.openPort 50
        ⟨some 1, some 2, true, false, none, .dgram, .unix, [], [], []⟩
      = ⟨some 1, some 2, true, false, none, .dgram, .unix, [], [], []⟩ :=
  ⟨c5_open_per_direction.1 ⟨true⟩ rfl,
   c5_open_per_direction.2.1 ⟨false⟩ rfl,
   c5_open_per_direction.2.2.1
     ⟨some 1, some 2, true, true, some 2, .dgram, .inet, [], [], []⟩ 50 rfl rfl,
   c5_open_per_direction.2.2.2.1
     ⟨some 1, some 2, true, false, none, .dgram, .inet, [], [], []⟩ 50 1 2
     rfl rfl rfl rfl rfl,
   c5_open_per_direction.2.2.2.2.1
     ⟨some 1, some 2, false, true, some 2, .dgram, .inet, [], [], []⟩ 50 1
     rfl rfl rfl,
   c5_open_per_direction.2.2.2.2.2
     ⟨some 1, some 2, true, false, none, .dgram, .unix, [], [], []⟩ 50
     rfl rfl rfl⟩

/-- C6: on a datagram transport constructed with only a listen address,
every `write()` while no peer is known is a no-op that only appends the
discard notice — no datagram sent, no flag or address changed, no
exception; after one `read()` that received a datagram from peer X, the
write address is X and every subsequent `write()` sends to X. -/
theorem c6_peer_learning :
    (∀ (s : mavSocket.SocketState) (ℓ : Addr) (b : Bytes),
      s.writeAddress = none → s.wConnected = false →
      mavSocket.write ℓ b s
        = {s with warnings := s.warnings ++ ["Write address not yet known"]}) ∧
    (∀ (L X ℓ : Addr) (m b b2 : Bytes),
      (mavSocket.afterLearn L ℓ X m).writeAddress = some X ∧
      (mavSocket.write ℓ b (mavSocket.afterLearn L ℓ X m)).sent
        = (mavSocket.afterLearn L ℓ X m).sent ++ [(b, X)] ∧
      (mavSocket.write ℓ b2
          (mavSocket.write ℓ b (mavSocket.afterLearn L ℓ X m))).sent
        = (mavSocket.write ℓ b (mavSocket.afterLearn L ℓ X m)).sent
            ++ [(b2, X)]) := by
  constructor
  · intro s ℓ b hw hwc
    simp [mavSocket.write, mavSocket.openWritePort, hw, hwc]
  · intro L X ℓ m b b2
    simp [mavSocket.afterLearn, mavSocket.listenOnlyOpened,
      mavSocket.initSocket, mavSocket.openPort, mavSocket.openReadPort,
      mavSocket.openWritePort, mavSocket.isUDP, mavSocket.read,
      mavSocket.write]

/-- C6 (witness): the peer-learning theorem applied to a concrete
listen-only transport, before any inbound datagram and after learning
peer 9 from one received datagram. -/
theorem c6_peer_learning_witness :
    mavSocket.write 50 [7] (mavSocket.initSocket (some 1) none)
      = {mavSocket.initSocket (some 1) none with
          warnings := (mavSocket.initSocket (some 1) none).warnings
            ++ ["Write address not yet known"]} ∧
    ((mavSocket.afterLearn 1 50 9 [3]).writeAddress = some 9 ∧
      (mavSocket.write 50 [4] (mavSocket.afterLearn 1 50 9 [3])).sent
        = (mavSocket.afterLearn 1 50 9 [3]).sent ++ [([4], 9)] ∧
      (mavSocket.write 50 [5]
          (mavSocket.write 50 [4] (mavSocket.afterLearn 1 50 9 [3]))).sent
        = (mavSocket.write 50 [4] (mavSocket.afterLearn 1 50 9 [3])).sent
            ++ [([5], 9)]) :=
  ⟨c6_peer_learning.1 (mavSocket.initSocket (some 1) none) 50 [7] rfl rfl,
   c6_peer_learning.2 1 9 50 [3] [4] [5]⟩

/-- C7: on a datagram transport constructed with only a peer address,
`openPort` connects the write socket to the peer and derives the listen
address from the local endpoint the OS assigned to that connect, so the
listen address equals the connect-derived local address and a subsequent
read can open the read direction without any explicit configuration. -/
theorem c7_self_discovery (p ℓ : Addr) :
    (mavSocket.selfDiscovered p ℓ).readAddress = some ℓ ∧
    (mavSocket.selfDiscovered p ℓ).wConnected = true ∧
    (mavSocket.selfDiscovered p ℓ).connectedPeer = some p ∧
    (mavSocket.openReadPort (mavSocket.selfDiscovered p ℓ)).1 = true ∧
    (mavSocket.openReadPort (mavSocket.selfDiscovered p ℓ)).2.rConnected
      = true := by
  simp [mavSocket.selfDiscovered, mavSocket.initSocket, mavSocket.openPort,
    mavSocket.openReadPort, mavSocket.openWritePort, mavSocket.isUDP]

/-- C8 (counterexample): the claim states that for a channel configured
read-only, `isOpen()` returns true once that single required direction is
established.  On a transport constructed with only a listen address,
`openPort` establishes the read direction, yet `isOpen()` still returns
false, because the code demands both flags regardless of configuration —
as the repository test `test_notConnected2` also expects. -/
theorem c8_counterexample :
    (mavSocket.openPort 50 (mavSocket.initSocket (some 1) none)).rConnected
        = true ∧
    mavSocket.isOpen
        (mavSocket.openPort 50 (mavSocket.initSocket (some 1) none))
      = false := by
  constructor
  · rfl
  · rfl

/-- C8 (amended): `isOpen()` returns true exactly when both the read and
the write direction are established, regardless of which directions the
channel configuration calls for; in particular a transport configured
with only a listen address still reports false after `openPort`
established its single configured direction. -/
theorem c8_isOpen_requires_both (s : mavSocket.SocketState) :
    (mavSocket.isOpen s = true ↔
      s.rConnected = true ∧ s.wConnected = true) ∧
    mavSocket.isOpen
        (mavSocket.openPort 50 (mavSocket.initSocket (some 1) none))
      = false := by
  constructor
  · simp [mavSocket.isOpen]
  · rfl

/-- C10: on a datagram transport whose selectors make `isUDP` false (UNIX
address family, or a non-datagram socket type), `openPort` establishes
only the read direction even when a peer address is configured, so
`isOpen()` is false right after `openPort`; the write direction is
established by the first `write()`, which then sends to the configured
peer. -/
theorem c10_non_udp_write_lazy (s : mavSocket.SocketState) (ℓ a w : Addr)
    (hu : mavSocket.isUDP s = false)
    (hra : s.readAddress = some a) (hwa : s.writeAddress = some w)
    (hrc : s.rConnected = false) (hwc : s.wConnected = false) :
    (mavSocket.openPort ℓ s).rConnected = true ∧
    (mavSocket.openPort ℓ s).wConnected = false ∧
    mavSocket.isOpen (mavSocket.openPort ℓ s) = false ∧
    (mavSocket.write ℓ [7] (mavSocket.openPort ℓ s)).wConnected = true ∧
    (mavSocket.write ℓ [7] (mavSocket.openPort ℓ s)).sent
      = s.sent ++ [([7], w)] := by
  simp only [mavSocket.isUDP] at hu
  simp [mavSocket.openPort, mavSocket.openReadPort, mavSocket.openWritePort,
    mavSocket.write, mavSocket.isOpen, mavSocket.isUDP, hu, hra, hwa, hrc, hwc]

/-- C10 (witness): the lazy-write theorem applied to the UNIX-family
transport of the repository test `Test_AF_UNIX`, configured with both a
listen and a peer address. -/
theorem c10_non_udp_write_lazy_witness :
    (mavSocket.openPort 50
        (mavSocket.set_AF_type .unix
          (mavSocket.initSocket (some 1) (some 2)))).rConnected = true ∧
    (mavSocket.openPort 50
        (mavSocket.set_AF_type .unix
          (mavSocket.initSocket (some 1) (some 2)))).wConnected = false ∧
    mavSocket.isOpen
        (mavSocket.openPort 50
          (mavSocket.set_AF_type .unix
            (mavSocket.initSocket (some 1) (some 2)))) = false ∧
    (mavSocket.write 50 [7]
        (mavSocket.openPort 50
          (mavSocket.set_AF_type .unix
            (mavSocket.initSocket (some 1) (some 2))))).wConnected = true ∧
    (mavSocket.write 50 [7]
        (mavSocket.openPort 50
          (mavSocket.set_AF_type .unix
            (mavSocket.initSocket (some 1) (some 2))))).sent
      = (mavSocket.set_AF_type .unix
          (mavSocket.initSocket (some 1) (some 2))).sent ++ [([7], 2)] :=
  c10_non_udp_write_lazy
    (mavSocket.set_AF_type .unix (mavSocket.initSocket (some 1) (some 2)))
    50 1 2 rfl rfl rfl rfl rfl

/-- C9 (witness): the validation theorem applied to a non-message payload
and to the valid message X on the fresh scheduler. -/
theorem c9_enqueue_validation_witness :
    ((mavThread.queueOutputMsg mavThread.initSched ⟨7, false⟩ 5).1 = false ∧
      (mavThread.queueOutputMsg mavThread.initSched ⟨7, false⟩ 5).2
        = mavThread.initSched) ∧
    ((mavThread.queueOutputMsg mavThread.initSched mavThread.msgX 5).1
        = true ∧
      (mavThread.queueOutputMsg mavThread.initSched mavThread.msgX 5).2.queue
        = mavThread.initSched.queue
            ++ [⟨5, mavThread.initSched.seq, mavThread.msgX⟩] ∧
      (mavThread.queueOutputMsg mavThread.initSched mavThread.msgX 5).2.seq
        = mavThread.initSched.seq + 1) :=
  ⟨(c9_enqueue_validation mavThread.initSched ⟨7, false⟩ 5).1 rfl,
   (c9_enqueue_validation mavThread.initSched mavThread.msgX 5).2 rfl⟩

end MavlinkThread
